import Mathlib

/-!
Verification of the routing layer of the `financial-kpi-dashboard`
repository (`src/novafi/src/App.js`).

The source is a single React component `App` that renders a `NavBar`
followed by a `<Routes>` element containing five `<Route>` children:

  <Route path="/"         element={<Home />} />
  <Route path="/features" element={<Features />} />
  <Route path="/pricing"  element={<Pricing />} />
  <Route path="/contact"  element={<Contact />} />
  <Route path="/login"    element={<Login />} />

The page components (`Home`, `Features`, `Pricing`, `Contact`, `Login`)
and `NavBar` are opaque collaborators imported from files outside the
given source tree; they are embedded as distinct atomic constructors.
The matching semantics of `react-router-dom`'s `Routes` element is
library code, also not part of the given source; it is modelled from the
specification's description (exact literal match, no wildcard or nested
routes, first match wins).
-/

/-- The five page components imported by `App.js`.  Each is an opaque,
zero-argument renderable unit; distinct imports are distinct
constructors. -/
inductive Page where
  | Home
  | Features
  | Pricing
  | Contact
  | Login
  deriving DecidableEq, Repr

/-- One `<Route path=... element=... />` child of the `<Routes>` element:
a binding from a literal URL path to the page component it renders. -/
structure Route where
  path : String
  element : Page
  deriving DecidableEq, Repr

/-- The route table: the five `<Route>` children of `<Routes>` in
`App.js`, in source order. -/
def routes : List Route :=
  [ ⟨"/", Page.Home⟩
  , ⟨"/features", Page.Features⟩
  , ⟨"/pricing", Page.Pricing⟩
  , ⟨"/contact", Page.Contact⟩
  , ⟨"/login", Page.Login⟩ ]

/-- The five literal paths bound in the route table. -/
def definedPaths : List String := routes.map Route.path

/-- A browser location as seen by the router: the URL decomposed into
pathname, query string and fragment.  The route table is matched against
the pathname only. -/
structure Location where
  pathname : String
  search : String
  hash : String
  deriving DecidableEq, Repr

/-- Modelled from the spec: the dispatcher of `react-router-dom`'s
`Routes` element (library code, not in the given source).  Per the spec,
the five bindings are literal paths with "no wildcard or nested routes
present", matched under "exact-match semantics provided by the
underlying router"; the first (and, paths being unique, only) binding
whose path equals the pathname is selected, and an unmatched pathname
selects nothing. -/
def matchRoutes : List Route → String → Option Page
  | [], _ => none
  | r :: rs, u => if r.path = u then some r.element else matchRoutes rs u

/-- Modelled from the spec: the set of route bindings whose literal path
matches a given pathname under the exact-match semantics described in
the spec. -/
def matchingBindings : List Route → String → List Route
  | [], _ => []
  | r :: rs, u =>
      if r.path = u then r :: matchingBindings rs u else matchingBindings rs u

/-- A node of `App`'s rendered output: either the `NavBar` component or
one of the page components. -/
inductive Node where
  | NavBar
  | PageEl (p : Page)
  deriving DecidableEq, Repr

/-- The rendered output of one evaluation of `App`: the `<Routes>`
element's children (the route table as constructed by this render) and
the flat list of rendered nodes (the fragment `<> <NavBar /> <Routes>
... </Routes> </>`). -/
structure AppRender where
  table : List Route
  children : List Node
  deriving DecidableEq, Repr

/-- The `App` component of `App.js`: renders `NavBar`, then the
`<Routes>` element, which dispatches the current location's pathname
against the five route bindings and renders the matched page component
(or nothing when no binding matches). -/
def App (l : Location) : AppRender :=
  { table := routes
  , children :=
      Node.NavBar ::
        (match matchRoutes routes l.pathname with
          | some p => [Node.PageEl p]
          | none => []) }

/-- The page components appearing in a render's content region. -/
def pages (r : AppRender) : List Page :=
  r.children.filterMap fun n =>
    match n with
    | Node.NavBar => none
    | Node.PageEl p => some p

/-- The navigation-shell portion of a render: the leading node of the
fragment, which the dispatcher never touches. -/
def shellOf (r : AppRender) : Option Node :=
  r.children.head?

/-- Closed-form characterisation of the dispatcher on the concrete route
table of `App.js`. -/
theorem matchRoutes_spec (u : String) :
    matchRoutes routes u =
      if u = "/" then some Page.Home
      else if u = "/features" then some Page.Features
      else if u = "/pricing" then some Page.Pricing
      else if u = "/contact" then some Page.Contact
      else if u = "/login" then some Page.Login
      else none := by
  by_cases h1 : u = "/"
  · subst h1; decide
  by_cases h2 : u = "/features"
  · subst h2; decide
  by_cases h3 : u = "/pricing"
  · subst h3; decide
  by_cases h4 : u = "/contact"
  · subst h4; decide
  by_cases h5 : u = "/login"
  · subst h5; decide
  have g1 : ¬("/" = u) := fun h => h1 h.symm
  have g2 : ¬("/features" = u) := fun h => h2 h.symm
  have g3 : ¬("/pricing" = u) := fun h => h3 h.symm
  have g4 : ¬("/contact" = u) := fun h => h4 h.symm
  have g5 : ¬("/login" = u) := fun h => h5 h.symm
  simp [matchRoutes, routes, h1, h2, h3, h4, h5, g1, g2, g3, g4, g5]

/-- Closed-form characterisation of the set of matching bindings on the
concrete route table of `App.js`. -/
theorem matchingBindings_spec (u : String) :
    matchingBindings routes u =
      if u = "/" then [⟨"/", Page.Home⟩]
      else if u = "/features" then [⟨"/features", Page.Features⟩]
      else if u = "/pricing" then [⟨"/pricing", Page.Pricing⟩]
      else if u = "/contact" then [⟨"/contact", Page.Contact⟩]
      else if u = "/login" then [⟨"/login", Page.Login⟩]
      else [] := by
  by_cases h1 : u = "/"
  · subst h1; decide
  by_cases h2 : u = "/features"
  · subst h2; decide
  by_cases h3 : u = "/pricing"
  · subst h3; decide
  by_cases h4 : u = "/contact"
  · subst h4; decide
  by_cases h5 : u = "/login"
  · subst h5; decide
  have g1 : ¬("/" = u) := fun h => h1 h.symm
  have g2 : ¬("/features" = u) := fun h => h2 h.symm
  have g3 : ¬("/pricing" = u) := fun h => h3 h.symm
  have g4 : ¬("/contact" = u) := fun h => h4 h.symm
  have g5 : ¬("/login" = u) := fun h => h5 h.symm
  simp [matchingBindings, routes, h1, h2, h3, h4, h5, g1, g2, g3, g4, g5]

/-- The content region of a render is exactly the dispatcher's selection:
the matched page component, or nothing. -/
theorem pages_App (l : Location) :
    pages (App l) = (matchRoutes routes l.pathname).toList := by
  unfold pages App
  cases h : matchRoutes routes l.pathname <;> simp [h]

/-- C1: for each of the five defined paths, rendering `App` at that path
(whatever the query string and fragment) produces the `NavBar` followed
by exactly the corresponding page component. -/
theorem C1_defined_paths_render (s h : String) :
    (App ⟨"/", s, h⟩).children = [Node.NavBar, Node.PageEl Page.Home] ∧
    (App ⟨"/features", s, h⟩).children
      = [Node.NavBar, Node.PageEl Page.Features] ∧
    (App ⟨"/pricing", s, h⟩).children
      = [Node.NavBar, Node.PageEl Page.Pricing] ∧
    (App ⟨"/contact", s, h⟩).children
      = [Node.NavBar, Node.PageEl Page.Contact] ∧
    (App ⟨"/login", s, h⟩).children
      = [Node.NavBar, Node.PageEl Page.Login] :=
  ⟨rfl, rfl, rfl, rfl, rfl⟩

/-- C2: the route table has exactly five bindings, their paths are the
five literal strings in source order, and the paths are pairwise
distinct. -/
theorem C2_route_table :
    routes.length = 5 ∧
    routes.map Route.path = ["/", "/features", "/pricing", "/contact", "/login"] ∧
    (routes.map Route.path).Nodup := by
  decide

/-- C3 (counterexample): at the undefined path "/unknown" no binding
matches and zero page components are rendered, so it is not the case
that exactly one page component is rendered for every URL path. -/
theorem C3_counterexample :
    (matchingBindings routes "/unknown").length = 0 ∧
    (pages (App ⟨"/unknown", "", ""⟩)).length = 0 ∧
    ¬ (pages (App ⟨"/unknown", "", ""⟩)).length = 1 := by
  decide

/-- C3 (amended): for every URL path at most one route binding matches
and at most one page component is rendered (never two or more
simultaneously); exactly one page component is rendered when the path is
one of the five defined paths, and zero otherwise. -/
theorem C3_at_most_one (l : Location) :
    (matchingBindings routes l.pathname).length ≤ 1 ∧
    (pages (App l)).length ≤ 1 ∧
    (l.pathname ∈ definedPaths → (pages (App l)).length = 1) ∧
    (l.pathname ∉ definedPaths → (pages (App l)).length = 0) := by
  refine ⟨?_, ?_, ?_, ?_⟩
  · rw [matchingBindings_spec]
    split_ifs <;> simp
  · rw [pages_App, matchRoutes_spec]
    split_ifs <;> simp
  · intro hm
    simp [definedPaths, routes] at hm
    rw [pages_App, matchRoutes_spec]
    rcases hm with h | h | h | h | h <;> simp [h]
  · intro hn
    simp [definedPaths, routes] at hn
    obtain ⟨h1, h2, h3, h4, h5⟩ := hn
    rw [pages_App, matchRoutes_spec]
    simp [h1, h2, h3, h4, h5]

/-- C3 (witness): at the defined path "/" exactly one page component is
rendered, and at the undefined path "/x" zero page components are
rendered. -/
theorem C3_at_most_one_witness :
    ("/" ∈ definedPaths ∧ (pages (App ⟨"/", "", ""⟩)).length = 1) ∧
    ("/x" ∉ definedPaths ∧ (pages (App ⟨"/x", "", ""⟩)).length = 0) :=
  ⟨⟨by decide, (C3_at_most_one ⟨"/", "", ""⟩).2.2.1 (by decide)⟩,
   ⟨by decide, (C3_at_most_one ⟨"/x", "", ""⟩).2.2.2 (by decide)⟩⟩

/-- C4: the navigation shell is rendered identically for any two
locations — it is the leading `NavBar` node regardless of the active
route — so navigating between any two paths leaves it unchanged and
present. -/
theorem C4_persistent_shell (l1 l2 : Location) :
    shellOf (App l1) = shellOf (App l2) ∧
    shellOf (App l1) = some Node.NavBar ∧
    Node.NavBar ∈ (App l1).children := by
  refine ⟨rfl, rfl, ?_⟩
  simp [App]

/-- C5: at any URL path outside the five defined paths, no route binding
matches, the content region is empty, and the `NavBar` still renders. -/
theorem C5_unmatched (l : Location) (h : l.pathname ∉ definedPaths) :
    matchingBindings routes l.pathname = [] ∧
    pages (App l) = [] ∧
    Node.NavBar ∈ (App l).children := by
  simp [definedPaths, routes] at h
  obtain ⟨h1, h2, h3, h4, h5⟩ := h
  refine ⟨?_, ?_, ?_⟩
  · rw [matchingBindings_spec]
    simp [h1, h2, h3, h4, h5]
  · rw [pages_App, matchRoutes_spec]
    simp [h1, h2, h3, h4, h5]
  · simp [App]

/-- C5 (witness): the undefined path "/unknown" matches no binding,
renders no page, and still renders the `NavBar`. -/
theorem C5_unmatched_witness :
    "/unknown" ∉ definedPaths ∧
    (matchingBindings routes "/unknown" = [] ∧
      pages (App ⟨"/unknown", "", ""⟩) = [] ∧
      Node.NavBar ∈ (App ⟨"/unknown", "", ""⟩).children) :=
  ⟨by decide, C5_unmatched ⟨"/unknown", "", ""⟩ (by decide)⟩

/-- C6: every render constructs the same route table — the constant
five-binding list — so the set of (path, component) bindings is
identical after every render and every URL change. -/
theorem C6_immutable_table (l1 l2 : Location) :
    (App l1).table = routes ∧ (App l1).table = (App l2).table :=
  ⟨rfl, rfl⟩

/-- C7: route dispatch is a deterministic pure function of the URL
pathname — two evaluations at the same pathname (whatever the other
location fields) select the same page component, or the same absence of
one. -/
theorem C7_deterministic_dispatch (l1 l2 : Location)
    (h : l1.pathname = l2.pathname) :
    matchRoutes routes l1.pathname = matchRoutes routes l2.pathname ∧
    pages (App l1) = pages (App l2) := by
  constructor
  · rw [h]
  · rw [pages_App, pages_App, h]

/-- C7 (witness): two locations sharing the pathname "/pricing" but
differing in query string and fragment dispatch to the same page. -/
theorem C7_deterministic_dispatch_witness :
    (Location.mk "/pricing" "a" "b").pathname
      = (Location.mk "/pricing" "c" "d").pathname ∧
    (matchRoutes routes (Location.mk "/pricing" "a" "b").pathname
        = matchRoutes routes (Location.mk "/pricing" "c" "d").pathname ∧
      pages (App (Location.mk "/pricing" "a" "b"))
        = pages (App (Location.mk "/pricing" "c" "d"))) :=
  ⟨rfl, C7_deterministic_dispatch _ _ rfl⟩

/-- C8: the five paths map to pairwise distinct page components — the
route table binds no component to two paths. -/
theorem C8_distinct_pages :
    routes.map Route.element
      = [Page.Home, Page.Features, Page.Pricing, Page.Contact, Page.Login] ∧
    (routes.map Route.element).Nodup := by
  decide

/-- C9: the root path "/" matches only the exact URL "/" — any pathname
dispatching to `Home` is "/" itself — and each of the other four defined
paths renders only its own component, never `Home`. -/
theorem C9_root_exact_match :
    (∀ u : String, matchRoutes routes u = some Page.Home → u = "/") ∧
    pages (App ⟨"/features", "", ""⟩) = [Page.Features] ∧
    pages (App ⟨"/pricing", "", ""⟩) = [Page.Pricing] ∧
    pages (App ⟨"/contact", "", ""⟩) = [Page.Contact] ∧
    pages (App ⟨"/login", "", ""⟩) = [Page.Login] := by
  refine ⟨?_, by decide, by decide, by decide, by decide⟩
  intro u h
  rw [matchRoutes_spec] at h
  split_ifs at h with a1 a2 a3 a4 a5
  · exact a1
  all_goals simp at h

/-- C9 (witness): "/" itself dispatches to `Home`, so the
characterisation is inhabited. -/
theorem C9_root_exact_match_witness :
    matchRoutes routes "/" = some Page.Home ∧ ("/" : String) = "/" :=
  ⟨by decide, C9_root_exact_match.1 "/" (by decide)⟩

/-- C10: `App` takes no props and holds no state — its entire rendered
output is determined solely by the URL pathname: two renders at the same
pathname are identical. -/
theorem C10_output_determined_by_url (l1 l2 : Location)
    (h : l1.pathname = l2.pathname) : App l1 = App l2 := by
  simp only [App, h]

/-- C10 (witness): two renders at the pathname "/login", with different
query strings and fragments, produce identical output. -/
theorem C10_output_determined_by_url_witness :
    (Location.mk "/login" "q" "f1").pathname
      = (Location.mk "/login" "r" "f2").pathname ∧
    App (Location.mk "/login" "q" "f1") = App (Location.mk "/login" "r" "f2") :=
  ⟨rfl, C10_output_determined_by_url _ _ rfl⟩
